import Mathlib

/-!
Verification development for the `datavizz` Flask application (`app.py`).

The application is a sequential LLM-orchestration pipeline: it enhances a
user prompt, designs a visual theme, generates a title, generates Manim
code, and renders a video via an external `manim` subprocess.

Python strings are modelled as `List Char`.  Python's string primitives
(`strip`, `find`, `rfind`, slicing, `in`, `endswith`, `replace`,
`os.path.join`) are each embedded as small recursive functions below, and
the application's functions (`clean_json_response`, the stage helpers,
`render_manim_video`, the `/generate` endpoint) are translated on top of
them.  Side effects (file writes, subprocess invocations, file reads,
deletions, console prints) are made explicit as a trace value returned
alongside each result.  The external LLM, the subprocess runner and the
media directory are oracles passed in as parameters.
-/

/-- Coerce a Lean string literal to the `List Char` representation used for
Python strings throughout this development. -/
def s (x : String) : List Char := x.data

instance {ε α : Type} [DecidableEq ε] [DecidableEq α] : DecidableEq (Except ε α) := fun a b =>
  match a, b with
  | .ok x, .ok y => if h : x = y then .isTrue (by rw [h]) else .isFalse (by simp [h])
  | .error x, .error y => if h : x = y then .isTrue (by rw [h]) else .isFalse (by simp [h])
  | .ok _, .error _ => .isFalse (by simp)
  | .error _, .ok _ => .isFalse (by simp)

/-- Whitespace predicate of Python's `str.strip()` (the ASCII whitespace
characters; Python additionally strips some rare Unicode space characters,
which never occur in the strings this development reasons about). -/
def pyIsSpace (c : Char) : Bool :=
  c == ' ' || c == '\t' || c == '\n' || c == '\r' || c == Char.ofNat 11 || c == Char.ofNat 12

/-- Python `text.strip()`: drop leading and trailing whitespace. -/
def pyStrip (t : List Char) : List Char :=
  ((t.dropWhile pyIsSpace).reverse.dropWhile pyIsSpace).reverse

/-- Python `text.find(c)` for a single-character needle: index of the first
occurrence, `none` standing for Python's `-1`. -/
def pyFind (c : Char) : List Char → Option Nat
  | [] => none
  | x :: xs => if x == c then some 0 else (pyFind c xs).map (· + 1)

/-- Python `text.rfind(c)` for a single-character needle: index of the last
occurrence, `none` standing for Python's `-1`. -/
def pyRfind (c : Char) : List Char → Option Nat
  | [] => none
  | x :: xs =>
    match pyRfind c xs with
    | some j => some (j + 1)
    | none => if x == c then some 0 else none

/-- Python `text[i]` as an optional lookup. -/
def pyGet? : List Char → Nat → Option Char
  | [], _ => none
  | x :: _, 0 => some x
  | _ :: xs, n + 1 => pyGet? xs n

/-- Python `pre == text[:len(pre)]`, i.e. `text.startswith(pre)`. -/
def pyStartsWith (pre t : List Char) : Bool :=
  t.take pre.length == pre

/-- Python `sub in text` (substring containment). -/
def pyIn (sub : List Char) : List Char → Bool
  | [] => sub == []
  | x :: xs => pyStartsWith sub (x :: xs) || pyIn sub xs

/-- Python `text.endswith(suf)`. -/
def pyEndswith (suf t : List Char) : Bool :=
  pyStartsWith suf.reverse t.reverse

/-- Worker for `pyReplace`; the pattern is `p :: ps` (nonempty).  The
fuel argument (initialized to the text's length, an upper bound on the
number of recursive steps since every step consumes at least one
character) only serves to make the recursion structural; it never runs
out before the text does. -/
def pyReplaceAux (p : Char) (ps rep : List Char) : Nat → List Char → List Char
  | 0, l => l
  | _ + 1, [] => []
  | fuel + 1, x :: xs =>
    if (x :: xs).take (ps.length + 1) == p :: ps then
      rep ++ pyReplaceAux p ps rep fuel (xs.drop ps.length)
    else
      x :: pyReplaceAux p ps rep fuel xs

/-- Python `text.replace(pat, rep)` (leftmost, non-overlapping).  The
source only uses nonempty patterns (`'.py'` and `'\\'`); for an empty
pattern this returns the text unchanged. -/
def pyReplace (pat rep t : List Char) : List Char :=
  match pat with
  | [] => t
  | p :: ps => pyReplaceAux p ps rep t.length t

/-- `os.path.join` on two components (POSIX). -/
def pyJoin2 (a b : List Char) : List Char :=
  if b.take 1 == ['/'] then b
  else if a == [] then b
  else if a.getLast? == some '/' then a ++ b
  else a ++ ['/'] ++ b

/-- `os.path.join` on a component list (POSIX). -/
def pyJoin : List (List Char) → List Char
  | [] => []
  | x :: rest => rest.foldl pyJoin2 x

/-- The start-index computation of `clean_json_response` (`app.py` lines
95–104): first occurrence of `'{'` or `'['`, whichever appears first;
`none` stands for Python's `-1`. -/
def start_of_json (t : List Char) : Option Nat :=
  match pyFind '{' t, pyFind '[' t with
  | some b, some k => some (min b k)
  | some b, none => some b
  | none, k => k

/-- `clean_json_response` (`app.py` lines 91–111): strip the text, locate
the first `'{'` or `'['`, pick the matching closing character, and return
the slice up to (and including) its last occurrence.  The raised
`ValueError` is modelled as `Except.error` carrying `str(e)`. -/
def clean_json_response (text0 : List Char) : Except (List Char) (List Char) :=
  let text := pyStrip text0
  match start_of_json text with
  | none => .error (s "No JSON object or array found in the response.")
  | some start =>
    let end_char := if pyGet? text start = some '{' then '}' else ']'
    let endpos := match pyRfind end_char text with
      | some j => j + 1
      | none => 0
    .ok ((text.drop start).take (endpos - start))

/-! ## Prompt templates (`class Prompts`, `app.py` lines 32–88)

Each `.format(...)` call of the source becomes a Lean function that splices
the substituted values between the template's literal pieces.  Only the
four templates used by the `/generate` pipeline are modelled; the
`/suggest_prompts` and `/explain_code` endpoints are outside the pipeline
modelled here. -/

/-- `Prompts.PROMPT_ENHANCER.format(prompt=...)`. -/
def PROMPT_ENHANCER_fmt (prompt : List Char) : List Char :=
  s "\n    You are a world-class creative director for a motion graphics studio specializing in Manim animations.\n    A client has given you a simple idea. Your task is to expand this into a detailed, scene-by-scene storyboard.\n    Focus on visual storytelling. Describe the objects, their transformations, the camera movements, and the overall narrative flow.\n    The output should be a rich, descriptive paragraph that will inspire a designer and a programmer.\n    Client's Idea: \"" ++
  prompt ++ s "\"\n    "

/-- `Prompts.DESIGNER.format(description=...)`. -/
def DESIGNER_fmt (description : List Char) : List Char :=
  s "\n    You are a senior visual designer with a keen eye for aesthetics and color theory.\n    Based on the following storyboard, develop a cohesive visual theme for a Manim animation.\n    Your output MUST be a JSON object with the following keys:\n    - \"palette\": A list of 5-7 complementary hex color codes.\n    - \"background_color\": A single hex color code for the scene background.\n    - \"font\": A suggestion for a common font family (e.g., \"Inter\", \"Lato\", \"Roboto\").\n    - \"animation_style\": A brief description of the animation's feel (e.g., \"Smooth and fluid\", \"Minimal and precise\", \"Playful and bouncy\").\n\n    Storyboard: \"" ++
  description ++ s "\"\n    "

/-- `Prompts.MANIM_CODER.format(description=..., theme=..., aspect_ratio=...)`.
The `aspect_ratio` substitution is called `aspect` here. -/
def MANIM_CODER_fmt (description theme aspect : List Char) : List Char :=
  s "\n    You are a lead Manim developer with extensive experience in writing clean, efficient, and correct animation code.\n    Your task is to write a complete, runnable Python script for a Manim animation based on a storyboard and a design brief.\n    **CRITICAL INSTRUCTIONS:**\n    1. The script MUST be a single, complete Python file.\n    2. Import all necessary classes from `manim`.\n    3. The main animation class MUST inherit from `Scene`.\n    4. The entire animation logic MUST be within the `construct` method.\n    5. **Strictly adhere to the design brief**: Use the provided `palette`, `background_color`, and `font`. Set the background color using `config.background_color`.\n    6. **Aspect Ratio**: Design the animation for a '" ++
  aspect ++
  s "' aspect ratio.\n    7. **Code Only**: Your output MUST be ONLY the raw Python code. Do not wrap it in markdown.\n    **Storyboard:** " ++
  description ++ s "\n    **Design Brief (JSON):** " ++ theme ++ s "\n    "

/-- `Prompts.TITLE_GENERATOR.format(description=...)`. -/
def TITLE_GENERATOR_fmt (description : List Char) : List Char :=
  s "\n    You are a creative copywriter specializing in catchy titles for video content.\n    Based on the following animation storyboard, generate a title and a short, engaging description (1-2 sentences).\n    The tone should be intriguing and suitable for platforms like YouTube or Twitter.\n    Return your answer as a single, perfectly formatted JSON object with two keys: \"title\" and \"description\".\n    **Storyboard:** " ++
  description ++ s "\n    "

/-! ## Stage helpers (`app.py` lines 115–133)

`model.generate_content(prompt).text` is modelled by an oracle
`gen : List Char → Except (List Char) (List Char)`: `.ok` is the returned
response text, `.error` is any exception raised by the call (safety block,
quota, transport), carrying `str(e)`. -/

/-- `enhance_prompt` (`app.py` lines 115–118). -/
def enhance_prompt (gen : List Char → Except (List Char) (List Char))
    (user_prompt : List Char) : Except (List Char) (List Char) :=
  gen (PROMPT_ENHANCER_fmt user_prompt)

/-- `design_theme` (`app.py` lines 120–123). -/
def design_theme (gen : List Char → Except (List Char) (List Char))
    (description : List Char) : Except (List Char) (List Char) :=
  (gen (DESIGNER_fmt description)).bind clean_json_response

/-- `generate_title_and_desc` (`app.py` lines 125–128). -/
def generate_title_and_desc (gen : List Char → Except (List Char) (List Char))
    (description : List Char) : Except (List Char) (List Char) :=
  (gen (TITLE_GENERATOR_fmt description)).bind clean_json_response

/-- `generate_manim_code` (`app.py` lines 130–133): the raw response text
is sanitized with `.strip()` only. -/
def generate_manim_code (gen : List Char → Except (List Char) (List Char))
    (description theme aspect : List Char) : Except (List Char) (List Char) :=
  (gen (MANIM_CODER_fmt description theme aspect)).map pyStrip

/-! ## Render invoker (`app.py` lines 9–11 and 135–160) -/

/-- `STATIC_DIR` (`app.py` line 10). -/
def STATIC_DIR : List Char := s "static"

/-- `GENERATED_CODE_FILENAME` (`app.py` line 11): a fixed module-level
constant, shared by every render invocation. -/
def GENERATED_CODE_FILENAME : List Char := s "generated_scene.py"

/-- The argument record of a `subprocess.run` invocation, including every
keyword argument the source passes (and the `timeout` keyword, which the
source does not pass: it is always `none` below). -/
structure SubprocCall where
  args : List (List Char)
  capture_output : Bool
  text : Bool
  timeout : Option Nat
deriving DecidableEq

/-- The completed-process value returned by `subprocess.run`. -/
structure SubprocResult where
  returncode : Int
  stdout : List Char
  stderr : List Char
deriving DecidableEq

/-- The filesystem queries performed after the subprocess finishes:
`os.path.exists` and `os.listdir` over the shared media directory. -/
structure MediaFS where
  path_exists : List Char → Bool
  listdir : List Char → List (List Char)

/-- Explicit record of the side effects of one render invocation, in the
order the source performs them: scratch-file writes, subprocess
invocations, file reads, file deletions, and console prints. -/
structure RenderTrace where
  writes : List (List Char × List Char)
  calls : List SubprocCall
  reads : List (List Char)
  deletes : List (List Char)
  logs : List (List Char)
deriving DecidableEq

/-- The empty side-effect trace (render step never reached). -/
def emptyTrace : RenderTrace := ⟨[], [], [], [], []⟩

/-- `isWordChar`: the `\w` character class of the scene-class regular
expression (ASCII letters, digits and underscore; Python's `re` also
admits Unicode word characters, which do not occur in the identifiers this
development reasons about). -/
def isWordChar (c : Char) : Bool :=
  c.isAlphanum || c == '_'

/-- Match `re`'s pattern `class (\w+)\(Scene\):` at the head of `t`,
returning the captured group.  Because `(` is not a word character, the
greedy `\w+` never backtracks usefully, so it is exactly the maximal run
of word characters after `"class "`. -/
def matchSceneAt (t : List Char) : Option (List Char) :=
  if pyStartsWith (s "class ") t then
    let rest := t.drop 6
    let name := rest.takeWhile isWordChar
    if !name.isEmpty && pyStartsWith (s "(Scene):") (rest.drop name.length) then some name
    else none
  else none

/-- `re.search(r"class (\w+)\(Scene\):", code)` (`app.py` line 138):
first position (leftmost) at which the pattern matches, returning the
captured scene name. -/
def searchScene : List Char → Option (List Char)
  | [] => none
  | x :: xs =>
    match matchSceneAt (x :: xs) with
    | some n => some n
    | none => searchScene xs

/-- `quality_flags.get(quality, "-pqh")` (`app.py` line 142–143): the fixed
three-tier lookup, whose `.get` default is `"-pqh"`. -/
def quality_flags_get (quality : List Char) : List Char :=
  if quality = s "fast" then s "-pql"
  else if quality = s "good" then s "-pqm"
  else if quality = s "best" then s "-pqh"
  else s "-pqh"

/-- `res_folder_map.get(quality, "1080p60")` (`app.py` lines 152–153). -/
def res_folder_map_get (quality : List Char) : List Char :=
  if quality = s "fast" then s "480p15"
  else if quality = s "good" then s "720p30"
  else if quality = s "best" then s "1080p60"
  else s "1080p60"

/-- The `command` list and `subprocess.run` keyword arguments built at
`app.py` lines 143–145.  No `timeout` keyword is passed. -/
def manim_command (scene_name quality : List Char) : SubprocCall :=
  { args := [s "manim", quality_flags_get quality, GENERATED_CODE_FILENAME, scene_name,
             s "--media_dir", STATIC_DIR],
    capture_output := true,
    text := true,
    timeout := none }

/-- `render_manim_video` (`app.py` lines 135–160).  Returns the result
(`.ok` with the located video path, `.error` with `str(e)` of the raised
exception) together with the trace of side effects performed. -/
def render_manim_video (code quality : List Char) (sp : SubprocCall → SubprocResult)
    (fs : MediaFS) : Except (List Char) (List Char) × RenderTrace :=
  let log0 := s "Step 4: Rendering video with quality '" ++ quality ++ s "'..."
  let writes := [(GENERATED_CODE_FILENAME, code)]
  match searchScene code with
  | none =>
    (.error (s "Could not find a Scene class in the generated code."),
     ⟨writes, [], [], [], [log0]⟩)
  | some scene_name =>
    let call := manim_command scene_name quality
    let result := sp call
    if result.returncode ≠ 0 then
      (.error (s "Manim rendering failed. Check console for details."),
       ⟨writes, [call], [], [],
        [log0, s "--- MANIM ERROR ---\n" ++ result.stderr ++ s "\n--- END MANIM ERROR ---"]⟩)
    else
      let video_folder := pyReplace (s ".py") [] GENERATED_CODE_FILENAME
      let res_folder := res_folder_map_get quality
      let search_dir := pyJoin [STATIC_DIR, s "videos", video_folder, res_folder]
      let logs := [log0, s "Manim render successful!"]
      if fs.path_exists search_dir then
        match (fs.listdir search_dir).find?
            (fun file => pyEndswith (s ".mp4") file && pyIn scene_name file) with
        | some file =>
          (.ok (pyReplace (s "\\") (s "/")
                  (pyJoin [s "static/videos", video_folder, res_folder, file])),
           ⟨writes, [call], [], [], logs⟩)
        | none =>
          (.error (s "Could not locate the rendered video file."), ⟨writes, [call], [], [], logs⟩)
      else
        (.error (s "Could not locate the rendered video file."), ⟨writes, [call], [], [], logs⟩)

/-! ## The `/generate` endpoint (`app.py` lines 167–187)

The request body is modelled as `Option GenRequest` (`none` is a missing
or falsy body); each field mirrors one `data.get`/`data['...']` access.
The response is `.ok` for the 200 JSON payload (whose `json.loads` and
`jsonify` assembly belong to the delivery shell) and `.error (msg, status)`
for the error responses.  The endpoint result is paired with the list of
pipeline stages actually invoked, in order, and the render step's
side-effect trace. -/

/-- One stage of the generation pipeline. -/
inductive Stage
  | enhance
  | design
  | titleDesc
  | code
  | render
deriving DecidableEq

/-- The fields of the `/generate` request body that the endpoint reads. -/
structure GenRequest where
  prompt : Option (List Char)
  aspect : Option (List Char)
  quality : Option (List Char)
deriving DecidableEq

/-- The data of the 200 response of `/generate` (before the delivery
shell's `json.loads(meta_json)`/`jsonify`). -/
structure GenOk where
  video_path : List Char
  code : List Char
  meta_json : List Char
deriving DecidableEq

/-- `generate_endpoint` (`app.py` lines 167–187): guard checks, then the
five-stage try-block; any exception is caught and surfaced as
`'An error occurred: ' + str(e)` with status 500. -/
def generate_endpoint (modelConfigured : Bool) (data : Option GenRequest)
    (gen : List Char → Except (List Char) (List Char))
    (sp : SubprocCall → SubprocResult) (fs : MediaFS) :
    Except (List Char × Nat) GenOk × List Stage × RenderTrace :=
  if !modelConfigured then (.error (s "Gemini API not configured.", 503), [], emptyTrace)
  else
    match data with
    | none => (.error (s "Prompt is required.", 400), [], emptyTrace)
    | some d =>
      match d.prompt with
      | none => (.error (s "Prompt is required.", 400), [], emptyTrace)
      | some p =>
        match enhance_prompt gen p with
        | .error e =>
          (.error (s "An error occurred: " ++ e, 500), [.enhance], emptyTrace)
        | .ok description =>
          match design_theme gen description with
          | .error e =>
            (.error (s "An error occurred: " ++ e, 500), [.enhance, .design], emptyTrace)
          | .ok theme =>
            match generate_title_and_desc gen description with
            | .error e =>
              (.error (s "An error occurred: " ++ e, 500),
               [.enhance, .design, .titleDesc], emptyTrace)
            | .ok meta_json =>
              match generate_manim_code gen description theme (d.aspect.getD (s "landscape")) with
              | .error e =>
                (.error (s "An error occurred: " ++ e, 500),
                 [.enhance, .design, .titleDesc, .code], emptyTrace)
              | .ok code =>
                match render_manim_video code (d.quality.getD (s "best")) sp fs with
                | (.error e, tr) =>
                  (.error (s "An error occurred: " ++ e, 500),
                   [.enhance, .design, .titleDesc, .code, .render], tr)
                | (.ok video_path, tr) =>
                  (.ok ⟨video_path, code, meta_json⟩,
                   [.enhance, .design, .titleDesc, .code, .render], tr)

/-- Modelled from the spec (for comparison with the code): the
`stripCodeFence` sanitizer the specification describes for the Code
stage's output — "if the text begins with a fence marker, removes the
opening fence line and any trailing closing fence line; otherwise returns
the text unchanged".  The source contains no such function; the embedded
`generate_manim_code` above applies `pyStrip` only. -/
def stripCodeFence_specModel (t : List Char) : List Char :=
  if pyStartsWith (s "```") t then
    let body := (t.dropWhile (fun c => !(c == '\n'))).drop 1
    let r := body.reverse.dropWhile pyIsSpace
    if pyStartsWith ((s "```").reverse) r then
      ((r.drop 3).dropWhile (fun c => c == '\n')).reverse
    else body
  else t

/-- Absence of the scene-class pattern, stated as a substring property:
`code` contains no substring `"class " ++ name ++ "(Scene):"` with `name`
a nonempty run of word characters.  `searchScene_none_iff` below proves
this is exactly when the embedded `re.search` fails. -/
def sceneSubstringFree (code : List Char) : Prop :=
  ¬ ∃ pre name post,
      code = pre ++ (s "class " ++ (name ++ (s "(Scene):" ++ post))) ∧
      name ≠ [] ∧ (∀ c ∈ name, isWordChar c = true)

/-! Concrete stub oracles used to instantiate the theorems below on
closed inputs. -/

/-- Stub model oracle returning a fixed braceless text for every prompt. -/
def genNoBraces : List Char → Except (List Char) (List Char) :=
  fun _ => .ok (s "a plain storyboard with no braces")

/-- Stub model oracle returning, for every prompt, a fixed text that
contains both a JSON object and a Scene class. -/
def genScene : List Char → Except (List Char) (List Char) :=
  fun _ => .ok (s "{}\nclass A(Scene):")

/-- Stub model oracle returning a fenced code block (which also contains a
JSON object, so the design and title stages succeed on it). -/
def genFenced : List Char → Except (List Char) (List Char) :=
  fun _ => .ok (s "```python\nprint({})\n```")

/-- Stub subprocess runner: exit code 1, empty output. -/
def spFail : SubprocCall → SubprocResult := fun _ => ⟨1, [], []⟩

/-- Stub subprocess runner: exit code 1, stderr `undefined scene`. -/
def spUndefScene : SubprocCall → SubprocResult := fun _ => ⟨1, [], s "undefined scene"⟩

/-- Stub subprocess runner: exit code 0, empty output. -/
def spOk : SubprocCall → SubprocResult := fun _ => ⟨0, [], []⟩

/-- Stub media directory: nothing exists. -/
def fsNone : MediaFS := ⟨fun _ => false, fun _ => []⟩

/-- Stub media directory containing `A.mp4` in the `480p15` folder of the
fixed scratch module. -/
def fsVideo : MediaFS :=
  ⟨fun d => d == s "static/videos/generated_scene/480p15",
   fun d => if d == s "static/videos/generated_scene/480p15" then [s "A.mp4"] else []⟩

/-- A request body with prompt `A bouncing ball` and no optional fields. -/
def reqBall : GenRequest := ⟨some (s "A bouncing ball"), none, none⟩

/-- A request body additionally selecting quality `fast`. -/
def reqBallFast : GenRequest := ⟨some (s "A bouncing ball"), none, some (s "fast")⟩

/-! ## Basic lemmas about the embedded string primitives -/

theorem pyFind_lt_length {c : Char} {l : List Char} {i : Nat} (h : pyFind c l = some i) :
    i < l.length := by
  induction l generalizing i with
  | nil => simp [pyFind] at h
  | cons x xs ih =>
    simp only [pyFind] at h
    by_cases hx : x == c
    · rw [if_pos hx] at h
      simp only [Option.some.injEq] at h
      simp [← h]
    · rw [if_neg hx] at h
      rw [Option.map_eq_some'] at h
      obtain ⟨j, hj, rfl⟩ := h
      have := ih hj
      simp only [List.length_cons]
      omega

theorem pyRfind_lt_length {c : Char} {l : List Char} {j : Nat} (h : pyRfind c l = some j) :
    j < l.length := by
  induction l generalizing j with
  | nil => simp [pyRfind] at h
  | cons x xs ih =>
    simp only [pyRfind] at h
    cases hxs : pyRfind c xs with
    | some j' =>
      rw [hxs] at h
      simp only [Option.some.injEq] at h
      have := ih hxs
      simp only [List.length_cons]
      omega
    | none =>
      rw [hxs] at h
      by_cases hx : x == c
      · rw [if_pos hx] at h
        simp only [Option.some.injEq] at h
        simp [← h]
      · rw [if_neg hx] at h
        exact absurd h (by simp)

theorem pyFind_eq_none_of_forall {c : Char} {l : List Char} (h : ∀ x ∈ l, x ≠ c) :
    pyFind c l = none := by
  induction l with
  | nil => rfl
  | cons x xs ih =>
    have hx : (x == c) = false := by
      simpa using h x (by simp)
    simp only [pyFind, hx, if_false]
    rw [ih (fun y hy => h y (by simp [hy]))]
    rfl

theorem pyRfind_eq_none_of_forall {c : Char} {l : List Char} (h : ∀ x ∈ l, x ≠ c) :
    pyRfind c l = none := by
  induction l with
  | nil => rfl
  | cons x xs ih =>
    have hx : (x == c) = false := by
      simpa using h x (by simp)
    simp [pyRfind, ih (fun y hy => h y (by simp [hy])), hx]

theorem pyFind_append_left {c : Char} {a : List Char} (u : List Char)
    (h : ∀ x ∈ a, x ≠ c) :
    pyFind c (a ++ u) = (pyFind c u).map (· + a.length) := by
  induction a with
  | nil =>
    cases h' : pyFind c u <;> simp [h']
  | cons x a' ih =>
    have hx : (x == c) = false := by
      simpa using h x (by simp)
    have ih' := ih (fun y hy => h y (by simp [hy]))
    rw [List.cons_append]
    show (if (x == c) = true then some 0 else (pyFind c (a' ++ u)).map (· + 1)) = _
    rw [hx, if_neg (by simp), ih']
    cases h' : pyFind c u with
    | none => simp
    | some j =>
      simp only [Option.map_some', List.length_cons, Option.some.injEq]
      omega

theorem pyFind_append_right {c : Char} (u : List Char) {b : List Char}
    (h : ∀ x ∈ b, x ≠ c) :
    pyFind c (u ++ b) = pyFind c u := by
  induction u with
  | nil => simpa [pyFind] using pyFind_eq_none_of_forall h
  | cons x u' ih =>
    rw [List.cons_append]
    show (if (x == c) = true then some 0 else (pyFind c (u' ++ b)).map (· + 1)) =
      (if (x == c) = true then some 0 else (pyFind c u').map (· + 1))
    rw [ih]

theorem pyRfind_append_right {c : Char} (u : List Char) {b : List Char}
    (h : ∀ x ∈ b, x ≠ c) :
    pyRfind c (u ++ b) = pyRfind c u := by
  induction u with
  | nil => simpa [pyRfind] using pyRfind_eq_none_of_forall h
  | cons x u' ih =>
    rw [List.cons_append]
    show (match pyRfind c (u' ++ b) with
          | some j => some (j + 1)
          | none => if (x == c) = true then some 0 else none) =
      (match pyRfind c u' with
          | some j => some (j + 1)
          | none => if (x == c) = true then some 0 else none)
    rw [ih]

theorem pyRfind_append_left {c : Char} {a : List Char} (u : List Char)
    (h : ∀ x ∈ a, x ≠ c) :
    pyRfind c (a ++ u) = (pyRfind c u).map (· + a.length) := by
  induction a with
  | nil =>
    cases h' : pyRfind c u <;> simp [h']
  | cons x a' ih =>
    have hx : (x == c) = false := by
      simpa using h x (by simp)
    have ih' := ih (fun y hy => h y (by simp [hy]))
    rw [List.cons_append]
    show (match pyRfind c (a' ++ u) with
          | some j => some (j + 1)
          | none => if (x == c) = true then some 0 else none) = _
    rw [ih']
    cases h' : pyRfind c u with
    | none => simp [hx]
    | some j =>
      simp only [Option.map_some', List.length_cons, Option.some.injEq]
      omega

theorem pyGet?_append_shift (a u : List Char) (i : Nat) :
    pyGet? (a ++ u) (i + a.length) = pyGet? u i := by
  induction a with
  | nil => simp [pyGet?]
  | cons x a' ih =>
    show pyGet? (x :: (a' ++ u)) (i + (a'.length + 1)) = pyGet? u i
    have : i + (a'.length + 1) = (i + a'.length) + 1 := by omega
    rw [this]
    exact ih

theorem pyGet?_append_of_lt {u : List Char} (b : List Char) {i : Nat} (h : i < u.length) :
    pyGet? (u ++ b) i = pyGet? u i := by
  induction u generalizing i with
  | nil => simp at h
  | cons x u' ih =>
    cases i with
    | zero => rfl
    | succ n =>
      show pyGet? (u' ++ b) n = pyGet? u' n
      exact ih (by simpa using Nat.lt_of_succ_lt_succ h)

theorem py_drop_append_shift (a u : List Char) (i : Nat) :
    (a ++ u).drop (i + a.length) = u.drop i := by
  induction a with
  | nil => simp
  | cons x a' ih =>
    show (x :: (a' ++ u)).drop (i + (a'.length + 1)) = u.drop i
    have : i + (a'.length + 1) = (i + a'.length) + 1 := by omega
    rw [this]
    exact ih

theorem py_drop_append_of_le {u : List Char} (b : List Char) {i : Nat} (h : i ≤ u.length) :
    (u ++ b).drop i = u.drop i ++ b := by
  induction u generalizing i with
  | nil =>
    have : i = 0 := by simpa using h
    simp [this]
  | cons x u' ih =>
    cases i with
    | zero => rfl
    | succ n =>
      show (u' ++ b).drop n = u'.drop n ++ b
      exact ih (by simpa using Nat.le_of_succ_le_succ h)

theorem py_take_append_of_le {u : List Char} (b : List Char) {n : Nat} (h : n ≤ u.length) :
    (u ++ b).take n = u.take n := by
  induction u generalizing n with
  | nil =>
    have : n = 0 := by simpa using h
    simp [this]
  | cons x u' ih =>
    cases n with
    | zero => rfl
    | succ m =>
      show x :: (u' ++ b).take m = x :: u'.take m
      rw [ih (by simpa using Nat.le_of_succ_le_succ h)]

/-! ## Decomposition of `pyStrip` and idempotence helpers -/

theorem pyStrip_decomp (t : List Char) :
    ∃ a b, t = a ++ (pyStrip t ++ b) ∧ (∀ x ∈ a, pyIsSpace x = true) ∧
      (∀ x ∈ b, pyIsSpace x = true) := by
  refine ⟨t.takeWhile pyIsSpace,
    ((t.dropWhile pyIsSpace).reverse.takeWhile pyIsSpace).reverse, ?_, ?_, ?_⟩
  · have h1 : t = t.takeWhile pyIsSpace ++ t.dropWhile pyIsSpace :=
      (List.takeWhile_append_dropWhile pyIsSpace t).symm
    have h2 : (t.dropWhile pyIsSpace).reverse =
        (t.dropWhile pyIsSpace).reverse.takeWhile pyIsSpace ++
          (t.dropWhile pyIsSpace).reverse.dropWhile pyIsSpace :=
      (List.takeWhile_append_dropWhile pyIsSpace (t.dropWhile pyIsSpace).reverse).symm
    have h3 : t.dropWhile pyIsSpace =
        pyStrip t ++ ((t.dropWhile pyIsSpace).reverse.takeWhile pyIsSpace).reverse := by
      unfold pyStrip
      conv_lhs => rw [← List.reverse_reverse (t.dropWhile pyIsSpace)]
      rw [congrArg List.reverse h2, List.reverse_append]
    conv_lhs => rw [h1, h3]
  · exact fun x hx => List.mem_takeWhile_imp hx
  · intro x hx
    rw [List.mem_reverse] at hx
    exact List.mem_takeWhile_imp hx

theorem dropWhile_dropWhile_same (p : Char → Bool) (l : List Char) :
    (l.dropWhile p).dropWhile p = l.dropWhile p := by
  induction l with
  | nil => rfl
  | cons x xs ih =>
    by_cases h : p x
    · simp [List.dropWhile_cons, h, ih]
    · simp [List.dropWhile_cons, h]

theorem dropWhile_head?_false {p : Char → Bool} {l : List Char} {x : Char}
    (h : (l.dropWhile p).head? = some x) : p x = false := by
  induction l with
  | nil => simp at h
  | cons y ys ih =>
    by_cases hy : p y
    · rw [List.dropWhile_cons, if_pos hy] at h
      exact ih h
    · rw [List.dropWhile_cons, if_neg hy] at h
      simp only [List.head?_cons, Option.some.injEq] at h
      rw [← h]
      simpa using hy

theorem dropWhile_eq_drop_length (p : Char → Bool) (l : List Char) :
    l.dropWhile p = l.drop (l.takeWhile p).length := by
  induction l with
  | nil => rfl
  | cons x xs ih =>
    by_cases h : p x
    · simp [List.dropWhile_cons, List.takeWhile_cons, h, ih]
    · simp [List.dropWhile_cons, List.takeWhile_cons, h]

theorem getLast?_drop_of_ne_nil {l : List Char} {n : Nat} (h : l.drop n ≠ []) :
    (l.drop n).getLast? = l.getLast? := by
  induction l generalizing n with
  | nil => simp at h
  | cons x xs ih =>
    cases n with
    | zero => rfl
    | succ m =>
      rw [List.drop_succ_cons] at h ⊢
      rw [ih h]
      cases xs with
      | nil => simp at h
      | cons y ys => rw [List.getLast?_cons_cons]

theorem pyStrip_head_not_space {t : List Char} {x : Char} {r : List Char}
    (hc : pyStrip t = x :: r) : pyIsSpace x = false := by
  have hh : ((t.dropWhile pyIsSpace).reverse.dropWhile pyIsSpace).getLast? = some x := by
    have hx : (pyStrip t).head? = some x := by rw [hc]; rfl
    unfold pyStrip at hx
    rwa [List.head?_reverse] at hx
  have hne : (t.dropWhile pyIsSpace).reverse.dropWhile pyIsSpace ≠ [] := by
    intro h0
    rw [h0] at hh
    simp at hh
  rw [dropWhile_eq_drop_length] at hh hne
  rw [getLast?_drop_of_ne_nil hne] at hh
  rw [List.getLast?_reverse] at hh
  exact dropWhile_head?_false hh

/-! ## Characterizations of `pyFind`, `pyRfind` and `start_of_json` as
first/last occurrence -/

theorem pyFind_eq_none_iff (c : Char) (l : List Char) :
    pyFind c l = none ↔ ∀ k, pyGet? l k ≠ some c := by
  induction l with
  | nil =>
    constructor
    · intro _ k
      cases k <;> simp [pyGet?]
    · intro _
      rfl
  | cons x xs ih =>
    by_cases hx : x == c
    · have hxc : x = c := by simpa using hx
      constructor
      · intro h
        simp [pyFind, hx] at h
      · intro h
        exact absurd (show pyGet? (x :: xs) 0 = some c by simp [pyGet?, hxc]) (h 0)
    · have hxc : ¬(x = c) := by simpa using hx
      constructor
      · intro h k
        rw [show pyFind c (x :: xs) =
              (if (x == c) = true then some 0 else (pyFind c xs).map (· + 1)) from rfl,
          if_neg (by simp [hxc])] at h
        have hxs : pyFind c xs = none := by
          cases h' : pyFind c xs with
          | none => rfl
          | some j => rw [h'] at h; simp at h
        cases k with
        | zero => simp [pyGet?, hxc]
        | succ n => exact (ih.mp hxs) n
      · intro h
        rw [show pyFind c (x :: xs) =
              (if (x == c) = true then some 0 else (pyFind c xs).map (· + 1)) from rfl,
          if_neg (by simp [hxc]), ih.mpr (fun n => h (n + 1))]
        rfl

theorem pyFind_eq_some_iff (c : Char) (l : List Char) (i : Nat) :
    pyFind c l = some i ↔
      (pyGet? l i = some c ∧ ∀ k, k < i → pyGet? l k ≠ some c) := by
  induction l generalizing i with
  | nil =>
    constructor
    · intro h
      simp [pyFind] at h
    · intro ⟨h1, _⟩
      cases i <;> simp [pyGet?] at h1
  | cons x xs ih =>
    by_cases hx : x == c
    · have hxc : x = c := by simpa using hx
      constructor
      · intro h
        rw [show pyFind c (x :: xs) =
              (if (x == c) = true then some 0 else (pyFind c xs).map (· + 1)) from rfl,
          if_pos (by simp [hxc])] at h
        have hi : i = 0 := by simpa using h.symm
        subst hi
        exact ⟨by simp [pyGet?, hxc], fun k hk => absurd hk (Nat.not_lt_zero k)⟩
      · intro ⟨h1, h2⟩
        cases i with
        | zero => simp [pyFind, hx]
        | succ n =>
          exact absurd (show pyGet? (x :: xs) 0 = some c by simp [pyGet?, hxc])
            (h2 0 (Nat.succ_pos n))
    · have hxc : ¬(x = c) := by simpa using hx
      have hstep : pyFind c (x :: xs) = (pyFind c xs).map (· + 1) := by
        rw [show pyFind c (x :: xs) =
              (if (x == c) = true then some 0 else (pyFind c xs).map (· + 1)) from rfl,
          if_neg (by simp [hxc])]
      cases i with
      | zero =>
        constructor
        · intro h
          rw [hstep] at h
          rw [Option.map_eq_some'] at h
          obtain ⟨j, _, hj⟩ := h
          omega
        · intro ⟨h1, _⟩
          rw [show pyGet? (x :: xs) 0 = some x from rfl] at h1
          simp at h1
          exact absurd h1 hxc
      | succ n =>
        constructor
        · intro h
          rw [hstep, Option.map_eq_some'] at h
          obtain ⟨j, hj, hj1⟩ := h
          have hjn : j = n := by omega
          rw [hjn] at hj
          obtain ⟨g1, g2⟩ := (ih n).mp hj
          refine ⟨g1, fun k hk => ?_⟩
          cases k with
          | zero =>
            rw [show pyGet? (x :: xs) 0 = some x from rfl]
            simp [hxc]
          | succ m =>
            exact g2 m (by omega)
        · intro ⟨h1, h2⟩
          have hxs : pyFind c xs = some n :=
            (ih n).mpr ⟨h1, fun k hk => h2 (k + 1) (by omega)⟩
          rw [hstep, hxs]
          rfl

theorem pyRfind_eq_none_iff (c : Char) (l : List Char) :
    pyRfind c l = none ↔ ∀ k, pyGet? l k ≠ some c := by
  induction l with
  | nil =>
    constructor
    · intro _ k
      cases k <;> simp [pyGet?]
    · intro _
      rfl
  | cons x xs ih =>
    constructor
    · intro h k
      have hxs : pyRfind c xs = none := by
        cases h' : pyRfind c xs with
        | none => rfl
        | some j => simp [pyRfind, h'] at h
      have hx : ¬(x = c) := by
        intro hxc
        rw [show pyRfind c (x :: xs) =
              (match pyRfind c xs with
               | some j => some (j + 1)
               | none => if (x == c) = true then some 0 else none) from rfl,
          hxs] at h
        simp [hxc] at h
      cases k with
      | zero => simp [pyGet?, hx]
      | succ n => exact (ih.mp hxs) n
    · intro h
      have hx : ¬(x = c) := by
        intro hxc
        exact absurd (show pyGet? (x :: xs) 0 = some c by simp [pyGet?, hxc]) (h 0)
      rw [show pyRfind c (x :: xs) =
            (match pyRfind c xs with
             | some j => some (j + 1)
             | none => if (x == c) = true then some 0 else none) from rfl,
        ih.mpr (fun n => h (n + 1)), if_neg (by simp [hx])]

theorem pyRfind_eq_some_iff (c : Char) (l : List Char) (j : Nat) :
    pyRfind c l = some j ↔
      (pyGet? l j = some c ∧ ∀ k, j < k → pyGet? l k ≠ some c) := by
  induction l generalizing j with
  | nil =>
    constructor
    · intro h
      simp [pyRfind] at h
    · intro ⟨h1, _⟩
      cases j <;> simp [pyGet?] at h1
  | cons x xs ih =>
    have hstep : pyRfind c (x :: xs) =
        (match pyRfind c xs with
         | some j' => some (j' + 1)
         | none => if (x == c) = true then some 0 else none) := rfl
    cases h' : pyRfind c xs with
    | some j' =>
      obtain ⟨g1, g2⟩ := (ih j').mp h'
      constructor
      · intro h
        rw [hstep, h'] at h
        simp only [Option.some.injEq] at h
        subst h
        refine ⟨g1, fun k hk => ?_⟩
        cases k with
        | zero => omega
        | succ m => exact g2 m (by omega)
      · intro ⟨h1, h2⟩
        rw [hstep, h']
        cases j with
        | zero =>
          exfalso
          exact absurd g1 (h2 (j' + 1) (by omega))
        | succ m =>
          have hm : pyRfind c xs = some m :=
            (ih m).mpr ⟨h1, fun k hk => h2 (k + 1) (by omega)⟩
          rw [h'] at hm
          simp only [Option.some.injEq] at hm
          simp [hm]
    | none =>
      have hnone : ∀ k, pyGet? xs k ≠ some c := (pyRfind_eq_none_iff c xs).mp h'
      by_cases hx : x = c
      · constructor
        · intro h
          rw [hstep, h', if_pos (by simp [hx])] at h
          simp only [Option.some.injEq] at h
          subst h
          exact ⟨by simp [pyGet?, hx], fun k hk => by
            cases k with
            | zero => omega
            | succ m => exact hnone m⟩
        · intro ⟨h1, h2⟩
          rw [hstep, h', if_pos (by simp [hx])]
          cases j with
          | zero => rfl
          | succ m => exact absurd h1 (hnone m)
      · constructor
        · intro h
          rw [hstep, h', if_neg (by simp [hx])] at h
          exact absurd h (by simp)
        · intro ⟨h1, h2⟩
          exfalso
          cases j with
          | zero =>
            rw [show pyGet? (x :: xs) 0 = some x from rfl] at h1
            simp at h1
            exact hx h1
          | succ m => exact absurd h1 (hnone m)

theorem start_of_json_lt_length {t : List Char} {i : Nat}
    (h : start_of_json t = some i) : i < t.length := by
  unfold start_of_json at h
  cases hb : pyFind '{' t with
  | some b =>
    cases hk : pyFind '[' t with
    | some k2 =>
      rw [hb, hk] at h
      have h1 := pyFind_lt_length hb
      have h2 := pyFind_lt_length hk
      simp only [Option.some.injEq] at h
      omega
    | none =>
      rw [hb, hk] at h
      have h1 := pyFind_lt_length hb
      simp only [Option.some.injEq] at h
      omega
  | none =>
    cases hk : pyFind '[' t with
    | some k2 =>
      rw [hb, hk] at h
      have h2 := pyFind_lt_length hk
      simp only [Option.some.injEq] at h
      omega
    | none =>
      rw [hb, hk] at h
      exact absurd h (by simp)

/-! ## Evaluation lemmas for `clean_json_response` -/

theorem clean_json_eval_error {t : List Char}
    (hi : start_of_json (pyStrip t) = none) :
    clean_json_response t = .error (s "No JSON object or array found in the response.") := by
  simp only [clean_json_response, hi]

theorem clean_json_eval_ok {t : List Char} {i' j' : Nat}
    (hi : start_of_json (pyStrip t) = some i')
    (hj : pyRfind (if pyGet? (pyStrip t) i' = some '{' then '}' else ']') (pyStrip t) =
      some j') :
    clean_json_response t = .ok (((pyStrip t).drop i').take ((j' + 1) - i')) := by
  simp only [clean_json_response, hi, hj]

theorem clean_json_eval_ok_none {t : List Char} {i' : Nat}
    (hi : start_of_json (pyStrip t) = some i')
    (hj : pyRfind (if pyGet? (pyStrip t) i' = some '{' then '}' else ']') (pyStrip t) =
      none) :
    clean_json_response t = .ok (((pyStrip t).drop i').take (0 - i')) := by
  simp only [clean_json_response, hi, hj]

/-- C1 (amended).  `clean_json_response` behaves as follows on every input
text `t`: (1) if `t` contains neither `'{'` nor `'['` (i.e. the start
search fails), it fails with the `MalformedResponse` `ValueError`; (2) if
the first opener of `t` is at index `i` and the last occurrence of the
matching closing character (`'}'` for `'{'`, `']'` for `'['`) is at index
`j ≥ i`, it returns the substring of `t` from `i` to `j` inclusive;
(3) if the matching closing character does not occur in `t` at all, or
(4) occurs only before `i`, it returns the empty string instead of
failing.  (`start_of_json`/`pyRfind` are characterized as first/last
occurrence by `start_of_json_eq_some_iff` and `pyRfind_eq_some_iff`.) -/
theorem clean_json_response_spec (t : List Char) :
    (start_of_json t = none →
      clean_json_response t = .error (s "No JSON object or array found in the response.")) ∧
    (∀ i j, start_of_json t = some i →
      pyRfind (if pyGet? t i = some '{' then '}' else ']') t = some j →
      i ≤ j →
      clean_json_response t = .ok ((t.drop i).take (j + 1 - i))) ∧
    (∀ i, start_of_json t = some i →
      pyRfind (if pyGet? t i = some '{' then '}' else ']') t = none →
      clean_json_response t = .ok []) ∧
    (∀ i j, start_of_json t = some i →
      pyRfind (if pyGet? t i = some '{' then '}' else ']') t = some j →
      j < i →
      clean_json_response t = .ok []) := by
  obtain ⟨a, b, ht, ha, hb⟩ := pyStrip_decomp t
  have hnot : ∀ c : Char, pyIsSpace c = false →
      (∀ x ∈ a, x ≠ c) ∧ (∀ x ∈ b, x ≠ c) := by
    intro c hc
    constructor
    · intro x hx hxc
      rw [← hxc, ha x hx] at hc
      exact Bool.noConfusion hc
    · intro x hx hxc
      rw [← hxc, hb x hx] at hc
      exact Bool.noConfusion hc
  have hf : ∀ c : Char, pyIsSpace c = false →
      pyFind c t = (pyFind c (pyStrip t)).map (· + a.length) := by
    intro c hc
    conv_lhs => rw [ht]
    rw [pyFind_append_left (pyStrip t ++ b) (hnot c hc).1,
      pyFind_append_right (pyStrip t) (hnot c hc).2]
  have hr : ∀ c : Char, pyIsSpace c = false →
      pyRfind c t = (pyRfind c (pyStrip t)).map (· + a.length) := by
    intro c hc
    conv_lhs => rw [ht]
    rw [pyRfind_append_left (pyStrip t ++ b) (hnot c hc).1,
      pyRfind_append_right (pyStrip t) (hnot c hc).2]
  have hstart : start_of_json t = (start_of_json (pyStrip t)).map (· + a.length) := by
    unfold start_of_json
    rw [hf '{' (by decide), hf '[' (by decide)]
    cases pyFind '{' (pyStrip t) <;> cases pyFind '[' (pyStrip t) <;>
      simp only [Option.map_some', Option.map_none', Option.some.injEq] <;> first
        | rfl
        | omega
  have hg : ∀ i' : Nat, i' < (pyStrip t).length →
      pyGet? t (i' + a.length) = pyGet? (pyStrip t) i' := by
    intro i' hlt
    conv_lhs => rw [ht]
    rw [pyGet?_append_shift, pyGet?_append_of_lt b hlt]
  refine ⟨?_, ?_, ?_, ?_⟩
  · intro h
    rw [hstart] at h
    exact clean_json_eval_error (Option.map_eq_none'.mp h)
  · intro i j hi hj hij
    rw [hstart] at hi
    obtain ⟨i', hi', hii⟩ := Option.map_eq_some'.mp hi
    have hlt : i' < (pyStrip t).length := start_of_json_lt_length hi'
    have hcond : pyGet? t i = pyGet? (pyStrip t) i' := by
      rw [← hii]
      exact hg i' hlt
    rw [hcond] at hj
    have hcsp : pyIsSpace (if pyGet? (pyStrip t) i' = some '{' then '}' else ']') = false := by
      split <;> decide
    rw [hr _ hcsp] at hj
    obtain ⟨j', hj', hjj⟩ := Option.map_eq_some'.mp hj
    have hjlt : j' < (pyStrip t).length := pyRfind_lt_length hj'
    rw [clean_json_eval_ok hi' hj']
    have hslice : (t.drop i).take (j + 1 - i) =
        ((pyStrip t).drop i').take ((j' + 1) - i') := by
      conv_lhs => rw [ht, ← hii, ← hjj]
      rw [py_drop_append_shift, py_drop_append_of_le b (Nat.le_of_lt hlt)]
      have harith : j' + a.length + 1 - (i' + a.length) = j' + 1 - i' := by omega
      rw [harith]
      exact py_take_append_of_le b (by rw [List.length_drop]; omega)
    rw [hslice]
  · intro i hi hj
    rw [hstart] at hi
    obtain ⟨i', hi', hii⟩ := Option.map_eq_some'.mp hi
    have hlt : i' < (pyStrip t).length := start_of_json_lt_length hi'
    have hcond : pyGet? t i = pyGet? (pyStrip t) i' := by
      rw [← hii]
      exact hg i' hlt
    rw [hcond] at hj
    have hcsp : pyIsSpace (if pyGet? (pyStrip t) i' = some '{' then '}' else ']') = false := by
      split <;> decide
    rw [hr _ hcsp] at hj
    have hj0 : pyRfind (if pyGet? (pyStrip t) i' = some '{' then '}' else ']')
        (pyStrip t) = none := Option.map_eq_none'.mp hj
    rw [clean_json_eval_ok_none hi' hj0]
    rw [Nat.zero_sub, List.take_zero]
  · intro i j hi hj hji
    rw [hstart] at hi
    obtain ⟨i', hi', hii⟩ := Option.map_eq_some'.mp hi
    have hlt : i' < (pyStrip t).length := start_of_json_lt_length hi'
    have hcond : pyGet? t i = pyGet? (pyStrip t) i' := by
      rw [← hii]
      exact hg i' hlt
    rw [hcond] at hj
    have hcsp : pyIsSpace (if pyGet? (pyStrip t) i' = some '{' then '}' else ']') = false := by
      split <;> decide
    rw [hr _ hcsp] at hj
    obtain ⟨j', hj', hjj⟩ := Option.map_eq_some'.mp hj
    rw [clean_json_eval_ok hi' hj']
    have hz : j' + 1 - i' = 0 := by omega
    rw [hz, List.take_zero]

/-- C9.  The sanitization actually applied to the Code stage's output
(`response.text.strip()`, `app.py` line 133) is idempotent: applying it to
already-stripped text is a no-op. -/
theorem pyStrip_idempotent (t : List Char) : pyStrip (pyStrip t) = pyStrip t := by
  have hz : (pyStrip t).dropWhile pyIsSpace = pyStrip t := by
    cases hc : pyStrip t with
    | nil => rfl
    | cons x rest =>
      rw [List.dropWhile_cons, if_neg (by simp [pyStrip_head_not_space hc])]
  show (((pyStrip t).dropWhile pyIsSpace).reverse.dropWhile pyIsSpace).reverse = pyStrip t
  rw [hz]
  have hrev : (pyStrip t).reverse = (t.dropWhile pyIsSpace).reverse.dropWhile pyIsSpace := by
    unfold pyStrip
    rw [List.reverse_reverse]
  rw [hrev, dropWhile_dropWhile_same]
  rfl

/-! ## The scene-class search as a substring property -/

theorem takeWhile_word_append {name : List Char} {c : Char} (rest : List Char)
    (hw : ∀ x ∈ name, isWordChar x = true) (hc : isWordChar c = false) :
    (name ++ c :: rest).takeWhile isWordChar = name := by
  induction name with
  | nil => simp [List.takeWhile_cons, hc]
  | cons y ys ih =>
    rw [List.cons_append, List.takeWhile_cons, if_pos (by simpa using hw y (by simp))]
    rw [ih (fun x hx => hw x (by simp [hx]))]

theorem matchSceneAt_some_decomp {t n : List Char} (h : matchSceneAt t = some n) :
    ∃ post, t = s "class " ++ (n ++ (s "(Scene):" ++ post)) ∧ n ≠ [] ∧
      (∀ c ∈ n, isWordChar c = true) := by
  simp only [matchSceneAt] at h
  split at h
  · split at h
    · rename_i h1 h2
      simp only [Option.some.injEq] at h
      subst h
      simp only [Bool.and_eq_true, Bool.not_eq_eq_eq_not, Bool.not_true] at h2
      obtain ⟨hne, hsw⟩ := h2
      refine ⟨((t.drop 6).drop ((t.drop 6).takeWhile isWordChar).length).drop 8, ?_, ?_, ?_⟩
      · have e1 : t = s "class " ++ t.drop 6 := by
          have htk : t.take 6 = s "class " := by
            unfold pyStartsWith at h1
            simpa using h1
          conv_lhs => rw [← List.take_append_drop 6 t]
          rw [htk]
        have e2 : t.drop 6 = (t.drop 6).takeWhile isWordChar ++
            ((t.drop 6).drop ((t.drop 6).takeWhile isWordChar).length) := by
          conv_lhs => rw [← List.takeWhile_append_dropWhile isWordChar (t.drop 6)]
          rw [dropWhile_eq_drop_length]
        have e3 : (t.drop 6).drop ((t.drop 6).takeWhile isWordChar).length =
            s "(Scene):" ++
              ((t.drop 6).drop ((t.drop 6).takeWhile isWordChar).length).drop 8 := by
          have htk8 : ((t.drop 6).drop ((t.drop 6).takeWhile isWordChar).length).take 8 =
              s "(Scene):" := by
            unfold pyStartsWith at hsw
            simpa using hsw
          conv_lhs =>
            rw [← List.take_append_drop 8
              ((t.drop 6).drop ((t.drop 6).takeWhile isWordChar).length)]
          rw [htk8]
        conv_lhs => rw [e1, e2, e3]
      · intro h0
        rw [h0] at hne
        simp at hne
      · exact fun c hc => List.mem_takeWhile_imp hc
    · exact absurd h (by simp)
  · exact absurd h (by simp)

theorem matchSceneAt_at_head {name : List Char} (post : List Char) (hne : name ≠ [])
    (hw : ∀ c ∈ name, isWordChar c = true) :
    matchSceneAt (s "class " ++ (name ++ (s "(Scene):" ++ post))) = some name := by
  have hpre : pyStartsWith (s "class ")
      (s "class " ++ (name ++ (s "(Scene):" ++ post))) = true := by
    unfold pyStartsWith
    rw [show (s "class ").length = 6 from rfl,
      show (6 : Nat) = (s "class ").length from rfl, List.take_left]
    simp
  have hdrop : (s "class " ++ (name ++ (s "(Scene):" ++ post))).drop 6 =
      name ++ (s "(Scene):" ++ post) := by
    rw [show (6 : Nat) = (s "class ").length from rfl, List.drop_left]
  have htw : (name ++ (s "(Scene):" ++ post)).takeWhile isWordChar = name := by
    rw [show s "(Scene):" ++ post = '(' :: (s "Scene):" ++ post) from rfl]
    exact takeWhile_word_append _ hw (by decide)
  have htk8 : (s "(Scene):" ++ post).take 8 = s "(Scene):" := by
    rw [show (8 : Nat) = (s "(Scene):").length from rfl, List.take_left]
  simp only [matchSceneAt, hdrop, htw]
  rw [if_pos hpre, if_pos (by rw [List.drop_left]; simp [pyStartsWith, htk8, hne])]

theorem searchScene_some_decomp {t n : List Char} (h : searchScene t = some n) :
    ∃ pre suf, t = pre ++ suf ∧ matchSceneAt suf = some n := by
  induction t with
  | nil => simp [searchScene] at h
  | cons x xs ih =>
    rw [show searchScene (x :: xs) =
          (match matchSceneAt (x :: xs) with
           | some m => some m
           | none => searchScene xs) from rfl] at h
    cases hm : matchSceneAt (x :: xs) with
    | some m =>
      rw [hm] at h
      simp only [Option.some.injEq] at h
      subst h
      exact ⟨[], x :: xs, rfl, hm⟩
    | none =>
      rw [hm] at h
      obtain ⟨pre, suf, heq, hsuf⟩ := ih h
      exact ⟨x :: pre, suf, by rw [List.cons_append, ← heq], hsuf⟩

theorem searchScene_none_no_match :
    ∀ t : List Char, searchScene t = none →
      ∀ pre suf, t = pre ++ suf → matchSceneAt suf = none := by
  intro t
  induction t with
  | nil =>
    intro _ pre suf heq
    obtain ⟨-, h2⟩ := List.append_eq_nil.mp heq.symm
    rw [h2]
    decide
  | cons x xs ih =>
    intro h pre suf heq
    have h1 : matchSceneAt (x :: xs) = none := by
      cases hm : matchSceneAt (x :: xs) with
      | some m =>
        rw [show searchScene (x :: xs) =
              (match matchSceneAt (x :: xs) with
               | some m => some m
               | none => searchScene xs) from rfl, hm] at h
        exact absurd h (by simp)
      | none => rfl
    have h2 : searchScene xs = none := by
      rw [show searchScene (x :: xs) =
            (match matchSceneAt (x :: xs) with
             | some m => some m
             | none => searchScene xs) from rfl, h1] at h
      exact h
    cases pre with
    | nil =>
      rw [List.nil_append] at heq
      rw [← heq]
      exact h1
    | cons p pre' =>
      have htail : xs = pre' ++ suf := by
        have := congrArg List.tail heq
        simpa using this
      exact ih h2 pre' suf htail

/-- The embedded `re.search` for the scene-class pattern fails exactly
when the code contains no matching substring. -/
theorem searchScene_none_iff (t : List Char) :
    searchScene t = none ↔ sceneSubstringFree t := by
  constructor
  · intro h hex
    obtain ⟨pre, name, post, heq, hne, hw⟩ := hex
    have hm := searchScene_none_no_match t h pre _ heq
    rw [matchSceneAt_at_head post hne hw] at hm
    exact Option.noConfusion hm
  · intro hfree
    cases hs : searchScene t with
    | none => rfl
    | some n =>
      exfalso
      obtain ⟨pre, suf, heq, hm⟩ := searchScene_some_decomp hs
      obtain ⟨post, hsuf, hne, hw⟩ := matchSceneAt_some_decomp hm
      exact hfree ⟨pre, n, post, by rw [heq, hsuf], hne, hw⟩

/-! ## Render invoker theorems -/

theorem render_writes (code quality : List Char) (sp : SubprocCall → SubprocResult)
    (fs : MediaFS) :
    (render_manim_video code quality sp fs).2.writes = [(GENERATED_CODE_FILENAME, code)] := by
  simp only [render_manim_video]
  split
  · rfl
  · split
    · rfl
    · split
      · split
        · rfl
        · rfl
      · rfl

/-- C10.  If the generated code contains no substring matching
`class (\w+)\(Scene\):`, the render step fails with the
"Could not find a Scene class" error without invoking the renderer
subprocess (`calls = []`) — but only after the code has already been
written to the scratch script file (`writes` records it). -/
theorem render_missing_scene_class (code quality : List Char)
    (sp : SubprocCall → SubprocResult) (fs : MediaFS)
    (h : sceneSubstringFree code) :
    render_manim_video code quality sp fs =
      (.error (s "Could not find a Scene class in the generated code."),
       ⟨[(GENERATED_CODE_FILENAME, code)], [], [], [],
        [s "Step 4: Rendering video with quality '" ++ quality ++ s "'..."]⟩) := by
  have hs : searchScene code = none := (searchScene_none_iff code).mpr h
  simp only [render_manim_video, hs]

/-- Witness for C10 at `code = "print(1)"`: no scene class, so the render
step errors with an empty subprocess trace and the scratch write recorded. -/
theorem render_missing_scene_class_witness :
    render_manim_video (s "print(1)") (s "best") spFail fsNone =
      (.error (s "Could not find a Scene class in the generated code."),
       ⟨[(GENERATED_CODE_FILENAME, s "print(1)")], [], [], [],
        [s "Step 4: Rendering video with quality '" ++ s "best" ++ s "'..."]⟩) :=
  render_missing_scene_class (s "print(1)") (s "best") spFail fsNone
    ((searchScene_none_iff (s "print(1)")).mp (by decide))

/-- C4 (amended).  Every render invocation writes its code to the same
fixed scratch script path `generated_scene.py` (the module-level constant
`GENERATED_CODE_FILENAME`); there is no per-invocation unique identifier. -/
theorem render_scratch_path_fixed (code quality : List Char)
    (sp : SubprocCall → SubprocResult) (fs : MediaFS) :
    (render_manim_video code quality sp fs).2.writes.map Prod.fst =
      [s "generated_scene.py"] := by
  rw [render_writes]
  rfl

/-- Counterexample to C4 as stated: two distinct render invocations use
the identical scratch script path, so render identifiers are not unique. -/
theorem render_same_scratch_path_cex :
    (render_manim_video (s "code one") (s "fast") spFail fsNone).2.writes.map Prod.fst =
        [s "generated_scene.py"] ∧
    (render_manim_video (s "code two") (s "best") spOk fsVideo).2.writes.map Prod.fst =
        [s "generated_scene.py"] ∧
    (s "code one" : List Char) ≠ s "code two" := by
  refine ⟨by decide, by decide, by decide⟩

/-- C8 (amended).  A render invocation performs no file reads and no file
deletions on any path through `render_manim_video`: the artifact is never
read into memory and neither the scratch script nor the artifact is
removed. -/
theorem render_no_reads_no_deletes (code quality : List Char)
    (sp : SubprocCall → SubprocResult) (fs : MediaFS) :
    (render_manim_video code quality sp fs).2.reads = [] ∧
    (render_manim_video code quality sp fs).2.deletes = [] := by
  constructor
  · simp only [render_manim_video]
    split
    · rfl
    · split
      · rfl
      · split
        · split
          · rfl
          · rfl
        · rfl
  · simp only [render_manim_video]
    split
    · rfl
    · split
      · rfl
      · split
        · split
          · rfl
          · rfl
        · rfl

/-- Counterexample to C8 as stated: a fully successful render invocation
returns the artifact's path while deleting nothing and reading no file —
both the scratch script and the artifact remain on disk. -/
theorem render_success_no_cleanup_cex :
    (render_manim_video (s "class A(Scene):\n") (s "fast") spOk fsVideo).1 =
        .ok (s "static/videos/generated_scene/480p15/A.mp4") ∧
    (render_manim_video (s "class A(Scene):\n") (s "fast") spOk fsVideo).2.deletes = [] ∧
    (render_manim_video (s "class A(Scene):\n") (s "fast") spOk fsVideo).2.reads = [] ∧
    (render_manim_video (s "class A(Scene):\n") (s "fast") spOk fsVideo).2.writes =
        [(s "generated_scene.py", s "class A(Scene):\n")] := by
  refine ⟨by decide, by decide, by decide, by decide⟩

/-- C6 (amended).  No wall-clock timeout is applied to the renderer
subprocess: every `subprocess.run` invocation recorded by
`render_manim_video` carries `timeout = none`, so there is no
`RenderTimeout` failure mode and the invocation waits for the subprocess. -/
theorem render_timeout_none (code quality : List Char)
    (sp : SubprocCall → SubprocResult) (fs : MediaFS) :
    ∀ c ∈ (render_manim_video code quality sp fs).2.calls, c.timeout = none := by
  intro c hc
  simp only [render_manim_video] at hc
  split at hc
  · simp at hc
  · split at hc
    · simp only [List.mem_singleton] at hc
      rw [hc]
      rfl
    · split at hc
      · split at hc
        · simp only [List.mem_singleton] at hc
          rw [hc]
          rfl
        · simp only [List.mem_singleton] at hc
          rw [hc]
          rfl
      · simp only [List.mem_singleton] at hc
        rw [hc]
        rfl

/-- Witness for C6 (amended): the single subprocess call of a concrete
render invocation carries no timeout. -/
theorem render_timeout_none_witness :
    manim_command (s "A") (s "best") ∈
      (render_manim_video (s "class A(Scene):\n") (s "best") spFail fsNone).2.calls ∧
    (manim_command (s "A") (s "best")).timeout = none :=
  ⟨by decide,
   render_timeout_none (s "class A(Scene):\n") (s "best") spFail fsNone
     (manim_command (s "A") (s "best")) (by decide)⟩

/-- Counterexample to C6 as stated: a concrete render invocation performs
exactly one subprocess call, and that call applies no timeout at all. -/
theorem render_no_timeout_cex :
    (render_manim_video (s "class A(Scene):\n") (s "best") spFail fsNone).2.calls.map
        SubprocCall.timeout = [none] := by
  decide

/-- C7 (amended).  When the renderer subprocess exits non-zero, the render
invocation fails with the fixed message
`Manim rendering failed. Check console for details.` — independent of the
captured stderr, which is only printed to the server console (the
`logs` component of the trace). -/
theorem render_failed_fixed_message (code quality : List Char)
    (sp : SubprocCall → SubprocResult) (fs : MediaFS) (scene : List Char)
    (hs : searchScene code = some scene)
    (hrc : (sp (manim_command scene quality)).returncode ≠ 0) :
    render_manim_video code quality sp fs =
      (.error (s "Manim rendering failed. Check console for details."),
       ⟨[(GENERATED_CODE_FILENAME, code)], [manim_command scene quality], [], [],
        [s "Step 4: Rendering video with quality '" ++ quality ++ s "'...",
         s "--- MANIM ERROR ---\n" ++ (sp (manim_command scene quality)).stderr ++
           s "\n--- END MANIM ERROR ---"]⟩) := by
  simp only [render_manim_video, hs]
  rw [if_pos hrc]

/-- Witness for C7 (amended) at a failing subprocess with stderr
`undefined scene`: the surfaced error is the fixed message and the stderr
appears only in the console log trace. -/
theorem render_failed_fixed_message_witness :
    render_manim_video (s "class A(Scene):\n") (s "best") spUndefScene fsNone =
      (.error (s "Manim rendering failed. Check console for details."),
       ⟨[(GENERATED_CODE_FILENAME, s "class A(Scene):\n")],
        [manim_command (s "A") (s "best")], [], [],
        [s "Step 4: Rendering video with quality '" ++ s "best" ++ s "'...",
         s "--- MANIM ERROR ---\n" ++ (spUndefScene (manim_command (s "A") (s "best"))).stderr ++
           s "\n--- END MANIM ERROR ---"]⟩) :=
  render_failed_fixed_message (s "class A(Scene):\n") (s "best") spUndefScene fsNone
    (s "A") (by decide) (by decide)

/-- C5 (amended).  The render step maps quality to the renderer flag via
the fixed three-tier table `fast ↦ -pql`, `good ↦ -pqm`, `best ↦ -pqh`
(media folders `480p15`/`720p30`/`1080p60`), and every quality outside the
table — including the spec's own `low`/`medium`/`high` — falls back to the
highest tier `-pqh`/`1080p60`; the chosen flag is placed in the `manim`
command of the single subprocess call. -/
theorem quality_lookup_table_spec :
    quality_flags_get (s "fast") = s "-pql" ∧
    quality_flags_get (s "good") = s "-pqm" ∧
    quality_flags_get (s "best") = s "-pqh" ∧
    res_folder_map_get (s "fast") = s "480p15" ∧
    res_folder_map_get (s "good") = s "720p30" ∧
    res_folder_map_get (s "best") = s "1080p60" ∧
    (∀ q, q ≠ s "fast" → q ≠ s "good" → q ≠ s "best" →
      quality_flags_get q = s "-pqh" ∧ res_folder_map_get q = s "1080p60") ∧
    (∀ scene quality, (manim_command scene quality).args =
      [s "manim", quality_flags_get quality, GENERATED_CODE_FILENAME, scene,
       s "--media_dir", STATIC_DIR]) := by
  refine ⟨by decide, by decide, by decide, by decide, by decide, by decide, ?_, fun _ _ => rfl⟩
  intro q h1 h2 h3
  constructor
  · unfold quality_flags_get
    rw [if_neg h1, if_neg h2, if_neg h3]
  · unfold res_folder_map_get
    rw [if_neg h1, if_neg h2, if_neg h3]

/-- Witness for C5 (amended): the unknown quality value `low` falls back
to the highest tier. -/
theorem quality_lookup_table_spec_witness :
    quality_flags_get (s "low") = s "-pqh" ∧ res_folder_map_get (s "low") = s "1080p60" :=
  quality_lookup_table_spec.2.2.2.2.2.2.1 (s "low") (by decide) (by decide) (by decide)

/-- Counterexample to C5 as stated: an unknown quality (`low`, which is
also what the spec's own enumeration would send) maps to `-pqh` — the
highest tier — not to the lowest tier `-pql`; likewise an unspecified
quality defaults (via the endpoint's `data.get('quality', 'best')`) to
`best ↦ -pqh`. -/
theorem quality_default_not_lowest_cex :
    quality_flags_get (s "low") = s "-pqh" ∧
    res_folder_map_get (s "low") = s "1080p60" ∧
    (s "-pqh" : List Char) ≠ s "-pql" ∧
    quality_flags_get ((none : Option (List Char)).getD (s "best")) = s "-pqh" := by
  refine ⟨by decide, by decide, by decide, by decide⟩

/-! ## Endpoint (pipeline) theorems -/

/-- C2.  The pipeline of `/generate` is fail-fast: whichever stage fails
first (Enhance, Design — including its JSON sanitization —,
TitleAndDescription, Code, Render), the endpoint immediately returns that
stage's error (prefixed `An error occurred: `, status 500), the invoked
stages are exactly the prefix up to and including the failing stage, and
no later stage runs (in particular the render trace stays empty whenever
the failure precedes Render).  The `MalformedResponse` scenario — Design
output without JSON braces — is the Design-failure case with
`design_theme` failing through `clean_json_response`. -/
theorem generate_endpoint_fail_fast
    (gen : List Char → Except (List Char) (List Char))
    (sp : SubprocCall → SubprocResult) (fs : MediaFS)
    (d : GenRequest) (p : List Char) (hp : d.prompt = some p) :
    (∀ e, enhance_prompt gen p = .error e →
      generate_endpoint true (some d) gen sp fs =
        (.error (s "An error occurred: " ++ e, 500), [Stage.enhance], emptyTrace)) ∧
    (∀ d1 e, enhance_prompt gen p = .ok d1 →
      design_theme gen d1 = .error e →
      generate_endpoint true (some d) gen sp fs =
        (.error (s "An error occurred: " ++ e, 500),
         [Stage.enhance, Stage.design], emptyTrace)) ∧
    (∀ d1 th e, enhance_prompt gen p = .ok d1 →
      design_theme gen d1 = .ok th →
      generate_title_and_desc gen d1 = .error e →
      generate_endpoint true (some d) gen sp fs =
        (.error (s "An error occurred: " ++ e, 500),
         [Stage.enhance, Stage.design, Stage.titleDesc], emptyTrace)) ∧
    (∀ d1 th mj e, enhance_prompt gen p = .ok d1 →
      design_theme gen d1 = .ok th →
      generate_title_and_desc gen d1 = .ok mj →
      generate_manim_code gen d1 th (d.aspect.getD (s "landscape")) = .error e →
      generate_endpoint true (some d) gen sp fs =
        (.error (s "An error occurred: " ++ e, 500),
         [Stage.enhance, Stage.design, Stage.titleDesc, Stage.code], emptyTrace)) ∧
    (∀ d1 th mj code e tr, enhance_prompt gen p = .ok d1 →
      design_theme gen d1 = .ok th →
      generate_title_and_desc gen d1 = .ok mj →
      generate_manim_code gen d1 th (d.aspect.getD (s "landscape")) = .ok code →
      render_manim_video code (d.quality.getD (s "best")) sp fs = (.error e, tr) →
      generate_endpoint true (some d) gen sp fs =
        (.error (s "An error occurred: " ++ e, 500),
         [Stage.enhance, Stage.design, Stage.titleDesc, Stage.code, Stage.render], tr)) := by
  refine ⟨?_, ?_, ?_, ?_, ?_⟩
  · intro e h1
    simp [generate_endpoint, hp, h1]
  · intro d1 e h1 h2
    simp [generate_endpoint, hp, h1, h2]
  · intro d1 th e h1 h2 h3
    simp [generate_endpoint, hp, h1, h2, h3]
  · intro d1 th mj e h1 h2 h3 h4
    simp [generate_endpoint, hp, h1, h2, h3, h4]
  · intro d1 th mj code e tr h1 h2 h3 h4 h5
    simp [generate_endpoint, hp, h1, h2, h3, h4, h5]

/-- Witness for C2: with a model stub whose every response is braceless
plain text, the Design stage's `clean_json_response` fails, the endpoint
returns the `MalformedResponse` error, and neither the Code stage nor the
Render stage is invoked (stage list stops at Design, render trace empty). -/
theorem generate_endpoint_fail_fast_witness :
    generate_endpoint true (some reqBall) genNoBraces spFail fsNone =
      (.error (s "An error occurred: No JSON object or array found in the response.", 500),
       [Stage.enhance, Stage.design], emptyTrace) := by
  have h := (generate_endpoint_fail_fast genNoBraces spFail fsNone reqBall
      (s "A bouncing ball") rfl).2.1
      (s "a plain storyboard with no braces")
      (s "No JSON object or array found in the response.")
      rfl (by decide)
  exact h

/-- C3 (amended).  On every run of the pipeline that reaches the render
step, the code handed to the render step (and written verbatim to the
scratch script) is exactly `pyStrip` of the Code stage's raw model
output: a whitespace trim and nothing else — no code-fence stripping is
performed. -/
theorem code_stage_strip_only
    (gen : List Char → Except (List Char) (List Char))
    (sp : SubprocCall → SubprocResult) (fs : MediaFS)
    (d : GenRequest) (p : List Char) (hp : d.prompt = some p) :
    ∀ d1 th mj ctext, enhance_prompt gen p = .ok d1 →
      design_theme gen d1 = .ok th →
      generate_title_and_desc gen d1 = .ok mj →
      gen (MANIM_CODER_fmt d1 th (d.aspect.getD (s "landscape"))) = .ok ctext →
      (generate_endpoint true (some d) gen sp fs).2.2.writes =
        [(GENERATED_CODE_FILENAME, pyStrip ctext)] := by
  intro d1 th mj ctext h1 h2 h3 h4
  have h4' : generate_manim_code gen d1 th (d.aspect.getD (s "landscape")) =
      .ok (pyStrip ctext) := by
    simp [generate_manim_code, h4, Except.map]
  have hw := render_writes (pyStrip ctext) (d.quality.getD (s "best")) sp fs
  cases hr : render_manim_video (pyStrip ctext) (d.quality.getD (s "best")) sp fs with
  | mk r tr =>
    rw [hr] at hw
    cases r with
    | error e =>
      simp [generate_endpoint, hp, h1, h2, h3, h4', hr]
      exact hw
    | ok v =>
      simp [generate_endpoint, hp, h1, h2, h3, h4', hr]
      exact hw

/-- Witness for C3 (amended): a concrete run whose Code stage output is a
fenced block; the scratch write records that fenced text verbatim (it has
no surrounding whitespace, so `pyStrip` leaves it unchanged). -/
theorem code_stage_strip_only_witness :
    (generate_endpoint true (some reqBall) genFenced spFail fsNone).2.2.writes =
      [(GENERATED_CODE_FILENAME, pyStrip (s "```python\nprint({})\n```"))] := by
  have h := code_stage_strip_only genFenced spFail fsNone reqBall (s "A bouncing ball") rfl
      (s "```python\nprint({})\n```") (s "{}") (s "{}")
      (s "```python\nprint({})\n```") rfl (by decide) (by decide) rfl
  exact h

/-- Counterexample to C3 as stated: the Code stage's fenced output reaches
the render step (scratch write) with its fences intact, differing from
what the spec's `stripCodeFence` would produce. -/
theorem code_stage_fence_not_stripped_cex :
    (generate_endpoint true (some reqBall) genFenced spFail fsNone).2.2.writes =
      [(GENERATED_CODE_FILENAME, s "```python\nprint({})\n```")] ∧
    stripCodeFence_specModel (s "```python\nprint({})\n```") = s "print({})" ∧
    (s "```python\nprint({})\n```" : List Char) ≠ s "print({})" := by
  refine ⟨by decide, by decide, by decide⟩

/-- Counterexample to C7 as stated: the renderer subprocess exits 1 with
stderr `undefined scene`, yet the error surfaced to the caller is the
fixed message, which does not contain the stderr. -/
theorem render_error_lacks_stderr_cex :
    (generate_endpoint true (some reqBall) genScene spUndefScene fsNone).1 =
      .error (s "An error occurred: Manim rendering failed. Check console for details.", 500) ∧
    pyIn (s "undefined scene")
      (s "An error occurred: Manim rendering failed. Check console for details.") = false ∧
    (spUndefScene (manim_command (s "A") (s "best"))).stderr = s "undefined scene" := by
  refine ⟨by decide, by decide, by decide⟩

/-- Witness for C1 (amended): on `"noise {\"a\": 1} tail"` the first
opener is the `'{'` at index 6, the last `'}'` is at index 13, and the
returned payload is the inclusive slice between them. -/
theorem clean_json_response_spec_witness :
    clean_json_response (s "noise \x7b\"a\": 1\x7d tail") = .ok (s "\x7b\"a\": 1\x7d") := by
  have h := (clean_json_response_spec (s "noise \x7b\"a\": 1\x7d tail")).2.1 6 13
    (by decide) (by decide) (by decide)
  exact h

/-- Counterexample to C1 as stated.  The input `"{a"` contains a `'{'`
(at index 0) but no `'}'` at all, so the claimed output — the substring
from the first opener to the last matching closer inclusive — does not
exist; yet `clean_json_response` neither fails with `MalformedResponse`
nor returns any brace-delimited substring: it returns the empty string,
which does not end with (or contain) the matching closer. -/
theorem clean_json_missing_closer_cex :
    pyFind '{' (s "\x7ba") = some 0 ∧
    pyFind '}' (s "\x7ba") = none ∧
    clean_json_response (s "\x7ba") = .ok [] ∧
    ([] : List Char).getLast? ≠ some '}' ∧
    clean_json_response (s "\x7ba") ≠
      .error (s "No JSON object or array found in the response.") := by
  refine ⟨by decide, by decide, by decide, by decide, by decide⟩

/-! ## Sanity checks -/

example : clean_json_response (s "noise \x7b\"a\": 1\x7d tail") = .ok (s "\x7b\"a\": 1\x7d") := by decide
example : clean_json_response (s "xs [1, 2] \x7b") = .ok (s "[1, 2]") := by decide
example : clean_json_response (s "plain text") =
    .error (s "No JSON object or array found in the response.") := by decide
example : pyStrip (s "  a b\t\n") = s "a b" := by decide
example : searchScene (s "x = 1\nclass MyScene(Scene):\n    pass") = some (s "MyScene") := by decide
example : searchScene (s "class (Scene):") = none := by decide
example : pyReplace (s ".py") [] (s "generated_scene.py") = s "generated_scene" := by decide
example : pyJoin [s "static", s "videos", s "generated_scene", s "480p15"] =
    s "static/videos/generated_scene/480p15" := by decide
example : stripCodeFence_specModel (s "```python\nx = 1\n```") = s "x = 1" := by decide
example : stripCodeFence_specModel (s "x = 1\n") = s "x = 1\n" := by decide
